import Mathlib

/-!
Formal model of the WebSocket session handler in
`internal/ws/handler.go` (package `ws`) of AlexDev404/ws-main.

Conventions of the embedding:
* Byte strings that the program treats as UTF-8 text (`[]byte` payloads,
  `string` values) are modelled as Lean `String` (a list of Unicode code
  points, matching Go's `[]rune` view).  The payload check
  `payload[0] == '\x7b'` compares the first byte; since `\x7b` is ASCII this
  coincides with comparing the first code point.
* Go `float64` operands of the calculator commands are modelled as exact
  rationals `Rat`; the dispatch structure (which operation runs, which
  error message is produced) is independent of the numeric representation.
* The standard library calls `json.Unmarshal` (into a generic map and into
  `CommandRequest`) are external collaborators, not code of this
  repository; their outcome on a given payload is passed to the model as
  data: a flag saying whether the payload parses as a JSON value, and the
  optional decoded `CommandRequest`.
* Wall-clock instants and durations are modelled as natural numbers of
  seconds; `time.Now()` at each event is an input of the event.
* The message counter is a Go `uint64` updated by `atomic.AddUint64`
  (handler.go line 187), so it is modelled as a natural number reduced
  modulo 2^64 at each increment.
-/

/-- Time constants from handler.go lines 19-23, in seconds:
`writeWait = 5 * time.Second`. -/
def writeWait : Nat := 5

/-- `pongWait = 30 * time.Second` (handler.go line 21). -/
def pongWait : Nat := 30

/-- `pingPeriod = (pongWait * 9) / 10` (handler.go line 22). -/
def pingPeriod : Nat := pongWait * 9 / 10

/-- Modulus of Go's `uint64`, the type of `messageCounter`
(updated with `atomic.AddUint64`, handler.go line 187). -/
def uint64Mod : Nat := 2 ^ 64

/-- The ASCII character `\x7b` (left curly brace), used by the dispatcher's
JSON detection `payload[0] == ...` (handler.go line 192). -/
def lbrace : Char := Char.ofNat 123

/-- `reverseString` (handler.go lines 26-32): converts the string to its
rune (code point) sequence, reverses it, and rebuilds the string. -/
def reverseString (s : String) : String :=
  String.mk s.data.reverse

/-- The decoded shape of a command frame.  The struct declaration
(`CommandRequest` with fields `Command string`, `A, B float64`) lives in a
repository file not present under src/; its field set is pinned by the
uses in `processCommand` (handler.go lines 47-58) and by spec section 6
(wire fields `command: string, a: number, b: number`).  Go's zero values
are the empty string and 0. -/
structure CommandRequest where
  command : String
  a : Rat
  b : Rat
deriving DecidableEq, Repr

/-- The reply shape marshalled back to the peer: fields
`Result float64`, `Command string`, `Error string` per the uses in
`processCommand` (handler.go lines 64-68) and spec section 6
(`result: number, command: string, error: string`). -/
structure CommandResponse where
  result : Rat
  command : String
  error : String
deriving DecidableEq, Repr

/-- The divide guard's epsilon: `math.Abs(req.B) < 1e-9`
(handler.go line 55). -/
def divEps : Rat := 1 / 1000000000

/-- `processCommand` (handler.go lines 35-71).  Input is the outcome of
`json.Unmarshal(payload, &req)`: `none` models a decode failure, in which
case the marshalled response carries only `Error: "Invalid JSON"` (result
and command zero-valued).  Otherwise the dispatch follows the `switch` on
`req.Command`; on `divide` with `|B| < 1e-9` the result stays 0 and the
error is "Division by zero"; an unrecognized command yields
"Unknown command" with result 0.  (`json.Marshal` of the response cannot
fail for this struct, so the model returns the response value itself.) -/
def processCommand (decoded : Option CommandRequest) : CommandResponse :=
  match decoded with
  | none => { result := 0, command := "", error := "Invalid JSON" }
  | some req =>
    if req.command = "add" then
      { result := req.a + req.b, command := req.command, error := "" }
    else if req.command = "subtract" then
      { result := req.a - req.b, command := req.command, error := "" }
    else if req.command = "multiply" then
      { result := req.a * req.b, command := req.command, error := "" }
    else if req.command = "divide" then
      if |req.b| < divEps then
        { result := 0, command := req.command, error := "Division by zero" }
      else
        { result := req.a / req.b, command := req.command, error := "" }
    else
      { result := 0, command := req.command, error := "Unknown command" }

/-- `allowedOrigins` (handler.go lines 74-76). -/
def allowedOrigins : List String :=
  ["http://localhost:4000"]

/-- Model of `strings.EqualFold` on the ASCII-only strings involved here:
equality after case folding each code point.  (Go's EqualFold uses Unicode
simple folding; on the ASCII allow-list entries the two agree.) -/
def equalFold (a b : String) : Bool :=
  a.data.map Char.toLower == b.data.map Char.toLower

/-- `originAllowed` (handler.go lines 78-88): the empty origin is
rejected; otherwise the origin is accepted iff it EqualFold-matches some
allow-list entry. -/
def originAllowed (o : String) : Bool :=
  if o = "" then false
  else allowedOrigins.any (fun a => equalFold o a)

/-- Outcome of `HandleWebSocket`'s pre-session phase. -/
inductive UpgradeResult where
  | methodNotAllowed
  | forbidden
  | session
deriving DecidableEq, Repr

/-- The pre-session phase of `HandleWebSocket` (handler.go lines 106-118)
together with the upgrader's origin gate (lines 91-103): a non-GET method
is answered 405 with no upgrade attempt; a disallowed origin makes
`upgrader.Upgrade` fail, and the upgrader's `Error` hook answers 403
("origin not allowed"); otherwise a session begins. -/
def handleUpgrade (method : String) (origin : String) : UpgradeResult :=
  if method ≠ "GET" then .methodNotAllowed
  else if originAllowed origin then .session
  else .forbidden

/-- HTTP status written for each pre-session outcome
(`http.StatusMethodNotAllowed` = 405, `http.StatusForbidden` = 403 from
the upgrader's `Error` hook; 101 Switching Protocols on upgrade). -/
def statusOf : UpgradeResult → Nat
  | .methodNotAllowed => 405
  | .forbidden => 403
  | .session => 101

/-- Whether a session resource was created. -/
def createsSession : UpgradeResult → Bool
  | .session => true
  | _ => false

/-- The reply payload written back for a text frame: either the raw
marshalled JSON of a `CommandResponse` (no sequence prefix), or a plain
text payload. -/
inductive Reply where
  | json (resp : CommandResponse)
  | text (s : String)
deriving DecidableEq, Repr

/-- `fmt.Sprintf("[Msg #%d] %s", count, payload)`
(handler.go lines 206 and 222). -/
def msgText (count : Nat) (s : String) : String :=
  "[Msg #" ++ toString count ++ "] " ++ s

/-- What the dispatcher observes about one inbound text payload: the
payload itself, whether `json.Unmarshal(payload, &testJSON)` into a
generic map succeeds (handler.go line 194), and the outcome of
`json.Unmarshal(payload, &req)` into `CommandRequest` inside
`processCommand` (handler.go line 37). -/
structure TextFrame where
  payload : String
  parseOk : Bool
  decoded : Option CommandRequest
deriving DecidableEq, Repr

/-- The text-frame branch of the read loop (handler.go lines 189-223),
given the post-increment counter value `count`: if the payload is
nonempty and begins with the byte `\x7b`, a successful generic JSON parse
routes it to `processCommand` and the reply is the raw JSON response
(no counter prefix); a failed parse falls back to the plain echo
`[Msg #N] <payload>`.  Otherwise the prefixes `UPPER:` and `REVERSE:`
transform the remainder (per rune) and every non-JSON reply is wrapped as
`[Msg #N] <text>`. -/
def handleTextFrame (count : Nat) (f : TextFrame) : Reply :=
  if f.payload.data.head? = some lbrace then
    if f.parseOk then .json (processCommand f.decoded)
    else .text (msgText count f.payload)
  else if "UPPER:".data.isPrefixOf f.payload.data then
    .text (msgText count (String.mk ((f.payload.data.drop 6).map Char.toUpper)))
  else if "REVERSE:".data.isPrefixOf f.payload.data then
    .text (msgText count (reverseString (String.mk (f.payload.data.drop 8))))
  else
    .text (msgText count f.payload)

/-- Per-session mutable state owned by `HandleWebSocket`: the `uint64`
message counter, the connection's read and write deadlines (absolute
instants), and whether the one-shot `done` channel has been closed. -/
structure SessionState where
  counter : Nat
  readDeadline : Nat
  writeDeadline : Nat
  doneClosed : Bool
deriving DecidableEq, Repr

/-- Session state right after the upgrade (handler.go line 129): the read
deadline is armed at `now + pongWait`, the counter is the zero-valued
`messageCounter`, `done` is open. -/
def initialState (now : Nat) : SessionState :=
  { counter := 0, readDeadline := now + pongWait, writeDeadline := 0,
    doneClosed := false }

/-- The pong handler installed by `conn.SetPongHandler`
(handler.go lines 132-136): on each pong it extends the read deadline to
`now + pongWait`. -/
def pongHandler (s : SessionState) (now : Nat) : SessionState :=
  { s with readDeadline := now + pongWait }

/-- One observable event of the read loop: either `conn.ReadMessage`
returns a frame (with the current instant, whether it is a text frame,
the dispatcher's view of the payload, and whether the subsequent
`conn.WriteMessage` of the reply succeeds), or it fails (timeout, peer
close, or other read error). -/
inductive ReadEvent where
  | msg (now : Nat) (isText : Bool) (frame : TextFrame) (writeOk : Bool)
  | failure (now : Nat)
deriving DecidableEq, Repr

/-- Frames written by the server that the model tracks: an attempted
reply write, an attempted control close frame (`WriteControl` with a
close code and text), an attempted ping probe, and the closing of the
`done` channel. -/
inductive Output where
  | reply (r : Reply)
  | closeFrame (code : Nat) (reason : String)
  | ping
  | closeDone
deriving DecidableEq, Repr

/-- Result of one read-loop iteration: continue looping or exit the
loop (`break`), with the new session state and the outputs attempted. -/
inductive LoopResult where
  | next (s : SessionState) (out : List Output)
  | exit (s : SessionState) (out : List Output)
deriving DecidableEq, Repr

/-- The state after a loop iteration. -/
def LoopResult.state : LoopResult → SessionState
  | .next s _ => s
  | .exit s _ => s

/-- The outputs attempted during a loop iteration. -/
def LoopResult.out : LoopResult → List Output
  | .next _ o => o
  | .exit _ o => o

/-- Whether the iteration keeps the loop running. -/
def LoopResult.keeps : LoopResult → Bool
  | .next _ _ => true
  | .exit _ _ => false

/-- `websocket.CloseNormalClosure`. -/
def closeNormalClosure : Nat := 1000

/-- One iteration of the read/echo loop (handler.go lines 160-230).
On a read failure: the write deadline is set and a graceful close frame
with the normal-closure code and reason "idle timeout" is attempted, then
the loop breaks.  On a successful read of a text frame: the write
deadline is set, the counter is atomically incremented (mod 2^64), the
reply is built from the post-increment value, and its write is attempted;
a write failure breaks the loop (with no close frame attempted).
A non-text frame produces no reply and no state change.  Note that no
branch of a successful read touches the read deadline: only the pong
handler renews it. -/
def readLoopStep (s : SessionState) (ev : ReadEvent) : LoopResult :=
  match ev with
  | .failure now =>
      .exit { s with writeDeadline := now + writeWait }
        [.closeFrame closeNormalClosure "idle timeout"]
  | .msg now isText frame writeOk =>
      if isText then
        let count := (s.counter + 1) % uint64Mod
        let s2 := { s with writeDeadline := now + writeWait, counter := count }
        let rep := handleTextFrame count frame
        if writeOk then .next s2 [.reply rep]
        else .exit s2 [.reply rep]
      else
        .next s []

/-- Runs the read loop over a sequence of events, stopping at the first
event whose iteration breaks the loop.  Returns the final state, the
concatenated outputs, and whether the loop exited. -/
def runLoop (s : SessionState) : List ReadEvent → SessionState × List Output × Bool
  | [] => (s, [], false)
  | ev :: rest =>
    match readLoopStep s ev with
    | .next s2 out =>
        let r := runLoop s2 rest
        (r.1, out ++ r.2.1, r.2.2)
    | .exit s2 out => (s2, out, true)

/-- The whole session body after the upgrade (handler.go lines 159-235):
the read loop runs until it breaks, then `close(done)` runs exactly once
(line 233) before the deferred `conn.Close` releases the connection. -/
def handleSession (s : SessionState) (evs : List ReadEvent) :
    SessionState × List Output :=
  let r := runLoop s evs
  if r.2.2 then ({ r.1 with doneClosed := true }, r.2.1 ++ [.closeDone])
  else (r.1, r.2.1)

/-- State of the ping goroutine (handler.go lines 141-157). -/
inductive ProbeState where
  | running
  | stopped
deriving DecidableEq, Repr

/-- An event observed by the ping goroutine's `select`: a ticker tick
(with the outcome of the `WriteControl` ping write), or the `done`
channel becoming closed. -/
inductive ProbeEvent where
  | tick (writeOk : Bool)
  | done
deriving DecidableEq, Repr

/-- One `select` round of the ping goroutine: while running, a tick
attempts a ping probe (a failed write ends the goroutine); observing the
closed `done` channel ends it.  A stopped goroutine does nothing ever
again. -/
def probeStep : ProbeState → ProbeEvent → ProbeState × List Output
  | .running, .tick true => (.running, [.ping])
  | .running, .tick false => (.stopped, [.ping])
  | .running, .done => (.stopped, [])
  | .stopped, _ => (.stopped, [])

/-- Runs the ping goroutine over a sequence of events. -/
def probeRun (st : ProbeState) : List ProbeEvent → ProbeState × List Output
  | [] => (st, [])
  | ev :: rest =>
    let r := probeStep st ev
    let r2 := probeRun r.1 rest
    (r2.1, r.2 ++ r2.2)

/-- Recognizes the `close(done)` marker in an output trace. -/
def isCloseDone : Output → Bool
  | .closeDone => true
  | _ => false

/-- Recognizes an attempted graceful close frame in an output trace. -/
def isCloseFrame : Output → Bool
  | .closeFrame _ _ => true
  | _ => false

/-- Recognizes an attempted ping probe in an output trace. -/
def isPing : Output → Bool
  | .ping => true
  | _ => false

/-- The counter value after `n` processed text frames, starting from the
zero-valued `messageCounter` (each frame performs one
`atomic.AddUint64(&messageCounter, 1)`, wrapping at 2^64). -/
def counterAfterFrames : Nat → Nat
  | 0 => 0
  | n + 1 => (counterAfterFrames n + 1) % uint64Mod

/-- `idleReadLimit = 30 * time.Second` of the heartbeat-less variant of
the handler (src/unnamed/part_001, line 16), in seconds. -/
def idleReadLimit : Nat := 30

/-- One iteration of the read/echo loop of the heartbeat-less variant of
the handler (src/unnamed/part_001, `HandleWebSocket` lines 66-77): a read
failure just ends the loop (no close frame); after every successful read
the read deadline is extended to `now + idleReadLimit`; a text frame is
echoed back unchanged under a write deadline, and a write failure ends
the loop. -/
def readLoopStepNoHeartbeat (s : SessionState) (ev : ReadEvent) : LoopResult :=
  match ev with
  | .failure _ => .exit s []
  | .msg now isText fr writeOk =>
      let s1 := { s with readDeadline := now + idleReadLimit }
      if isText then
        let s2 := { s1 with writeDeadline := now + writeWait }
        if writeOk then .next s2 [.reply (.text fr.payload)]
        else .exit s2 [.reply (.text fr.payload)]
      else .next s1 []

/-- Rebuilding a string from its own code points is the identity. -/
theorem stringMk_data (s : String) : String.mk s.data = s := rfl

/-- The code points of a rebuilt string are the given list. -/
theorem stringData_mk (l : List Char) : (String.mk l).data = l := rfl

/-- The length of a rebuilt string is the length of the given list. -/
theorem stringLength_mk (l : List Char) : (String.mk l).length = l.length := rfl

/-- String concatenation concatenates the code-point sequences. -/
theorem stringData_append (a b : String) : (a ++ b).data = a.data ++ b.data := rfl

/-- Claim C1: for every text frame whose payload is a JSON object decoding
to command name "add", "subtract", or "multiply" with numeric operands A
and B, the reply is a JSON object whose result equals A+B, A-B, or A*B
respectively, whose command field echoes the command name, and whose
error field is the empty string; the dispatcher forwards the raw
`processCommand` response without any counter prefix. -/
theorem c1_arithmetic_commands (count : Nat) (payload : String)
    (req : CommandRequest) (hhead : payload.data.head? = some lbrace) :
    (req.command = "add" →
      processCommand (some req) = ⟨req.a + req.b, "add", ""⟩)
    ∧ (req.command = "subtract" →
      processCommand (some req) = ⟨req.a - req.b, "subtract", ""⟩)
    ∧ (req.command = "multiply" →
      processCommand (some req) = ⟨req.a * req.b, "multiply", ""⟩)
    ∧ handleTextFrame count ⟨payload, true, some req⟩
        = .json (processCommand (some req)) := by
  refine ⟨?_, ?_, ?_, ?_⟩
  · intro h; simp [processCommand, h]
  · intro h; simp [processCommand, h]
  · intro h; simp [processCommand, h]
  · simp [handleTextFrame, hhead]

/-- Witness for C1 at the frame of the claim: the payload decoding to
command "add" with operands 2 and 3 is answered by result 5, command
"add" echoed, empty error. -/
theorem c1_arithmetic_commands_witness :
    ("\x7b\"command\":\"add\",\"a\":2,\"b\":3\x7d" : String).data.head? = some lbrace
    ∧ processCommand (some ⟨"add", 2, 3⟩) = ⟨5, "add", ""⟩
    ∧ handleTextFrame 7
        ⟨"\x7b\"command\":\"add\",\"a\":2,\"b\":3\x7d", true, some ⟨"add", 2, 3⟩⟩
        = .json ⟨5, "add", ""⟩ := by
  have h := c1_arithmetic_commands 7 "\x7b\"command\":\"add\",\"a\":2,\"b\":3\x7d"
    ⟨"add", 2, 3⟩ (by decide)
  have h5 : processCommand (some ⟨"add", 2, 3⟩) = ⟨5, "add", ""⟩ := by
    rw [h.1 rfl]; norm_num
  exact ⟨by decide, h5, by rw [h.2.2.2, h5]⟩

/-- Counterexample to C2 as stated: a malformed-JSON text payload
beginning with the left-brace byte (here the four bytes `\x7bbad`, which
`json.Unmarshal` rejects) is answered by the plain echo reply
`[Msg #N] <payload>` (handler.go lines 204-207), not by a JSON object
with error "Invalid JSON". -/
theorem c2_malformed_json_counterexample :
    handleTextFrame 1 ⟨"\x7bbad", false, none⟩ = .text "[Msg #1] \x7bbad"
    ∧ handleTextFrame 1 ⟨"\x7bbad", false, none⟩ ≠ .json ⟨0, "", "Invalid JSON"⟩ := by
  decide

/-- Claim C2 as amended: a text payload beginning with the left-brace
byte that fails to parse as a JSON value is treated as a normal text
message and answered by the plain echo `[Msg #N] <payload>`; the JSON
reply with error "Invalid JSON" and zero-valued result and command fields
arises when the payload parses as a JSON value but fails to decode into
the command structure. -/
theorem c2_malformed_json_plain_echo (count : Nat) (payload : String)
    (dec : Option CommandRequest) (hhead : payload.data.head? = some lbrace) :
    handleTextFrame count ⟨payload, false, dec⟩ = .text (msgText count payload)
    ∧ handleTextFrame count ⟨payload, true, none⟩ = .json ⟨0, "", "Invalid JSON"⟩ := by
  constructor
  · simp [handleTextFrame, hhead]
  · simp [handleTextFrame, hhead, processCommand]

/-- Witness for the amended C2 at the payload `\x7bbad`. -/
theorem c2_malformed_json_plain_echo_witness :
    handleTextFrame 1 ⟨"\x7bbad", false, none⟩ = .text (msgText 1 "\x7bbad")
    ∧ handleTextFrame 1 ⟨"\x7bbad", true, none⟩ = .json ⟨0, "", "Invalid JSON"⟩ :=
  c2_malformed_json_plain_echo 1 "\x7bbad" none (by decide)

/-- Claim C3, evaluated on the code: in `HandleWebSocket` of
handler.go, no branch of a successful `ReadMessage` touches the read
deadline, so receipt of a frame leaves the deadline exactly as it was
(first conjunct, covering text and non-text frames and both write
outcomes); only the pong handler extends it to now + pongWait (second
conjunct).  The heartbeat-less variant in src/unnamed/part_001 does
renew the deadline to now + idleReadLimit on every successful receipt
(third conjunct), which together with the comment on handler.go line 180
("normal traffic also keeps the connection alive") shows the renewal on
receipt was the intent. -/
theorem c3_read_deadline_only_pong_renews (s : SessionState) (now : Nat)
    (isText : Bool) (fr : TextFrame) (w : Bool) :
    (readLoopStep s (.msg now isText fr w)).state.readDeadline = s.readDeadline
    ∧ (pongHandler s now).readDeadline = now + pongWait
    ∧ (readLoopStepNoHeartbeat s (.msg now isText fr w)).state.readDeadline
        = now + idleReadLimit := by
  refine ⟨?_, rfl, ?_⟩
  · cases isText <;> cases w <;> simp [readLoopStep, LoopResult.state]
  · cases isText <;> cases w <;> simp [readLoopStepNoHeartbeat, LoopResult.state]

/-- Counterexample to C4 as stated: a session that ends because the write
of a reply fails (here: the text frame "hi" at time 1, whose reply write
fails) terminates the receive loop with no graceful close frame anywhere
in its output trace; only the reply attempt and the closing of the done
channel are observed. -/
theorem c4_write_failure_no_close_counterexample :
    (readLoopStep (initialState 0) (.msg 1 true ⟨"hi", false, none⟩ false)).keeps = false
    ∧ (handleSession (initialState 0) [.msg 1 true ⟨"hi", false, none⟩ false]).2
        = [.reply (.text "[Msg #1] hi"), .closeDone]
    ∧ ((handleSession (initialState 0) [.msg 1 true ⟨"hi", false, none⟩ false]).2.filter
        isCloseFrame) = [] := by
  decide

/-- Claim C4 as amended: whenever the receive loop exits because
`ReadMessage` fails (read timeout, peer close, or read error), a graceful
close frame with the normal-closure code 1000 is attempted under a write
deadline before the loop breaks, and in the full session it precedes the
closing of the done channel and the release of the connection; a
write-failure exit, by contrast, attempts no close frame. -/
theorem c4_close_frame_on_read_failure (s : SessionState) (now : Nat) :
    readLoopStep s (.failure now)
      = .exit { s with writeDeadline := now + writeWait }
          [.closeFrame closeNormalClosure "idle timeout"]
    ∧ handleSession s [.failure now]
      = ({ s with writeDeadline := now + writeWait, doneClosed := true },
         [.closeFrame closeNormalClosure "idle timeout", .closeDone])
    ∧ closeNormalClosure = 1000 := by
  refine ⟨rfl, ?_, rfl⟩
  simp [handleSession, runLoop, readLoopStep]

/-- Closed form of the counter trace: after n processed text frames the
`uint64` counter holds n modulo 2^64. -/
theorem counterAfterFrames_eq (n : Nat) : counterAfterFrames n = n % uint64Mod := by
  induction n with
  | zero => rfl
  | succ k ih =>
    have h1 : (1 : Nat) % uint64Mod = 1 := Nat.mod_eq_of_lt (by norm_num [uint64Mod])
    calc counterAfterFrames (k + 1) = (counterAfterFrames k + 1) % uint64Mod := rfl
      _ = (k % uint64Mod + 1 % uint64Mod) % uint64Mod := by rw [ih, h1]
      _ = (k + 1) % uint64Mod := (Nat.add_mod k 1 uint64Mod).symm

/-- Counterexample to the unbounded monotonicity in C5: the counter is a
Go `uint64`, so after 2^64 processed text frames it has wrapped back to
0, which is not greater than its value 1 after the first frame. -/
theorem c5_counter_wrap_counterexample :
    1 < uint64Mod
    ∧ counterAfterFrames 1 = 1
    ∧ counterAfterFrames uint64Mod = 0
    ∧ ¬ counterAfterFrames 1 < counterAfterFrames uint64Mod := by
  have h1 : counterAfterFrames 1 = 1 := by
    rw [counterAfterFrames_eq]; exact Nat.mod_eq_of_lt (by norm_num [uint64Mod])
  have h2 : counterAfterFrames uint64Mod = 0 := by
    rw [counterAfterFrames_eq]; exact Nat.mod_self uint64Mod
  refine ⟨by norm_num [uint64Mod], h1, h2, ?_⟩
  rw [h1, h2]; omega

/-- Claim C5 as amended: every processed text frame increments the atomic
counter exactly once regardless of dispatch branch (the new counter value
is (old+1) mod 2^64 for every payload, parse outcome, decode outcome and
write outcome), the reply is built from exactly that post-increment
value, non-text frames do not touch the counter, and the counter values
are strictly monotonic across processed text frames as long as fewer
than 2^64 frames have been processed (the 64-bit counter wraps). -/
theorem c5_counter_increment_monotonic (s : SessionState) (now : Nat)
    (fr : TextFrame) (w : Bool) (i j : Nat) :
    (readLoopStep s (.msg now true fr w)).state.counter = (s.counter + 1) % uint64Mod
    ∧ (readLoopStep s (.msg now true fr w)).out
        = [.reply (handleTextFrame ((s.counter + 1) % uint64Mod) fr)]
    ∧ (readLoopStep s (.msg now false fr w)).state.counter = s.counter
    ∧ (i < j → j < uint64Mod → counterAfterFrames i < counterAfterFrames j) := by
  refine ⟨?_, ?_, rfl, ?_⟩
  · cases w <;> simp [readLoopStep, LoopResult.state]
  · cases w <;> simp [readLoopStep, LoopResult.out]
  · intro hij hj
    rw [counterAfterFrames_eq, counterAfterFrames_eq,
        Nat.mod_eq_of_lt (lt_trans hij hj), Nat.mod_eq_of_lt hj]
    exact hij

/-- Witness for the amended C5: the first processed text frame moves the
counter from 0 to (0+1) mod 2^64, and the counter after one frame is
below the counter after two. -/
theorem c5_counter_increment_monotonic_witness :
    (readLoopStep (initialState 0) (.msg 1 true ⟨"hi", false, none⟩ true)).state.counter
      = (0 + 1) % uint64Mod
    ∧ counterAfterFrames 1 < counterAfterFrames 2 := by
  have h := c5_counter_increment_monotonic (initialState 0) 1 ⟨"hi", false, none⟩ true 1 2
  exact ⟨h.1, h.2.2.2 (by norm_num) (by norm_num [uint64Mod])⟩

/-- Claim C6: a decoded "divide" command whose second operand is within
1e-9 of zero is answered with error "Division by zero" and result 0; a
decoded command whose name is outside the enumerated set is answered with
error "Unknown command" and result 0 (the command name echoed in both
cases); and such frames are recovered locally: a text frame whose reply
write succeeds keeps the receive loop running. -/
theorem c6_domain_errors (req : CommandRequest) (s : SessionState) (now : Nat)
    (fr : TextFrame) :
    (req.command = "divide" → |req.b| < divEps →
      processCommand (some req) = ⟨0, req.command, "Division by zero"⟩)
    ∧ (req.command ≠ "add" → req.command ≠ "subtract" → req.command ≠ "multiply" →
       req.command ≠ "divide" →
      processCommand (some req) = ⟨0, req.command, "Unknown command"⟩)
    ∧ (readLoopStep s (.msg now true fr true)).keeps = true := by
  refine ⟨?_, ?_, ?_⟩
  · intro h hb; simp [processCommand, h, hb]
  · intro h1 h2 h3 h4; simp [processCommand, h1, h2, h3, h4]
  · simp [readLoopStep, LoopResult.keeps]

/-- Witness for C6 at the frames of the spec: divide 5 by 0 gives the
"Division by zero" reply, the unknown command "noop" gives the
"Unknown command" reply, and the session continues after the divide
frame. -/
theorem c6_domain_errors_witness :
    processCommand (some ⟨"divide", 5, 0⟩) = ⟨0, "divide", "Division by zero"⟩
    ∧ processCommand (some ⟨"noop", 0, 0⟩) = ⟨0, "noop", "Unknown command"⟩
    ∧ (readLoopStep (initialState 0)
        (.msg 1 true ⟨"\x7b\"command\":\"divide\",\"a\":5,\"b\":0\x7d", true,
          some ⟨"divide", 5, 0⟩⟩ true)).keeps = true := by
  have h := c6_domain_errors ⟨"divide", 5, 0⟩ (initialState 0) 1
    ⟨"\x7b\"command\":\"divide\",\"a\":5,\"b\":0\x7d", true, some ⟨"divide", 5, 0⟩⟩
  have h2 := c6_domain_errors ⟨"noop", 0, 0⟩ (initialState 0) 1
    ⟨"noop", false, none⟩
  exact ⟨h.1 rfl (by norm_num [divEps]),
         h2.2.1 (by decide) (by decide) (by decide) (by decide),
         h.2.2⟩

/-- Claim C7: a text frame whose payload does not begin with a left brace
and has the prefix "REVERSE:" is answered by `[Msg #N] ` followed by the
remainder reversed by Unicode code point (the reply's code points are
exactly the remainder's code points reversed, so multi-byte characters
stay intact), where N is the post-increment sequence value used by the
read-loop iteration that processed the frame. -/
theorem c7_reverse_by_code_point (s : SessionState) (now : Nat) (count : Nat)
    (rest : String) (pok : Bool) (dec : Option CommandRequest) :
    handleTextFrame count ⟨"REVERSE:" ++ rest, pok, dec⟩
      = .text (msgText count (reverseString rest))
    ∧ (reverseString rest).data = rest.data.reverse
    ∧ (readLoopStep s (.msg now true ⟨"REVERSE:" ++ rest, pok, dec⟩ true)).out
        = [.reply (.text (msgText ((s.counter + 1) % uint64Mod) (reverseString rest)))] := by
  have hdata : ("REVERSE:" ++ rest).data
      = 'R' :: 'E' :: 'V' :: 'E' :: 'R' :: 'S' :: 'E' :: ':' :: rest.data := by
    rw [stringData_append]; rfl
  have hmain : ∀ c : Nat, handleTextFrame c ⟨"REVERSE:" ++ rest, pok, dec⟩
      = .text (msgText c (reverseString rest)) := by
    intro c
    unfold handleTextFrame
    simp only [hdata]
    rw [if_neg (by simp only [List.head?_cons, Option.some.injEq]; decide),
        if_neg (by simp [List.isPrefixOf])]
    have hp : (['R', 'E', 'V', 'E', 'R', 'S', 'E', ':'] : List Char).isPrefixOf
        ('R' :: 'E' :: 'V' :: 'E' :: 'R' :: 'S' :: 'E' :: ':' :: rest.data) = true := by
      simp [List.isPrefixOf]
    rw [if_pos hp]
    rfl
  refine ⟨hmain count, rfl, ?_⟩
  unfold readLoopStep
  simp [LoopResult.out, hmain]

/-- Claim C8: the origin guard rejects the empty origin, accepts a
non-empty origin exactly when it matches some allow-list entry up to
case (and otherwise exactly, character by character), and a rejected
origin makes the upgrade answer HTTP 403 with no session created. -/
theorem c8_origin_guard (o : String) :
    originAllowed "" = false
    ∧ (o ≠ "" →
        (originAllowed o = true ↔ ∃ a ∈ allowedOrigins, equalFold o a = true))
    ∧ (originAllowed o = false →
        handleUpgrade "GET" o = .forbidden
        ∧ statusOf (handleUpgrade "GET" o) = 403
        ∧ createsSession (handleUpgrade "GET" o) = false) := by
  refine ⟨rfl, ?_, ?_⟩
  · intro h
    unfold originAllowed
    rw [if_neg h]
    exact List.any_eq_true
  · intro h
    have hu : handleUpgrade "GET" o = .forbidden := by
      unfold handleUpgrade
      rw [if_neg (by simp), if_neg (by simp [h])]
    exact ⟨hu, by rw [hu]; rfl, by rw [hu]; rfl⟩

/-- Witness for C8: the upper-cased allowed origin is accepted
case-insensitively, and a foreign origin is answered 403 with no
session. -/
theorem c8_origin_guard_witness :
    originAllowed "HTTP://LOCALHOST:4000" = true
    ∧ handleUpgrade "GET" "http://evil.com" = .forbidden
    ∧ statusOf (handleUpgrade "GET" "http://evil.com") = 403 := by
  have h1 := (c8_origin_guard "HTTP://LOCALHOST:4000").2.1 (by decide)
  have h2 := (c8_origin_guard "http://evil.com").2.2 (by decide)
  exact ⟨h1.mpr ⟨"http://localhost:4000", by decide, by decide⟩, h2.1, h2.2.1⟩

/-- No single read-loop iteration ever closes the done channel. -/
theorem readLoopStep_no_closeDone (s : SessionState) (ev : ReadEvent) :
    (readLoopStep s ev).out.filter isCloseDone = [] := by
  cases ev with
  | failure now => rfl
  | msg now isText fr w =>
    cases isText <;> cases w <;> simp [readLoopStep, LoopResult.out, isCloseDone]

/-- The read loop itself never closes the done channel: only the code
after the loop does. -/
theorem runLoop_no_closeDone (evs : List ReadEvent) :
    ∀ s : SessionState, ((runLoop s evs).2.1.filter isCloseDone) = [] := by
  induction evs with
  | nil => intro s; rfl
  | cons ev rest ih =>
    intro s
    unfold runLoop
    cases h : readLoopStep s ev with
    | next s2 out =>
      have ho := readLoopStep_no_closeDone s ev
      rw [h] at ho
      simp only [LoopResult.out] at ho
      simp only [List.filter_append, ho, ih s2, List.nil_append, List.append_nil]
    | exit s2 out =>
      have ho := readLoopStep_no_closeDone s ev
      rw [h] at ho
      simpa using ho

/-- A stopped probe goroutine never runs again and emits nothing. -/
theorem probeRun_stopped (pevs : List ProbeEvent) :
    probeRun .stopped pevs = (.stopped, []) := by
  induction pevs with
  | nil => rfl
  | cons ev rest ih =>
    cases ev <;> simp [probeRun, probeStep, ih]

/-- Claim C9: whenever the receive loop exits, the session's output trace
contains exactly one closing of the one-shot done channel and the final
state records it closed; the probe goroutine observing the closed done
channel stops, and a stopped probe goroutine emits no output on any
further events — in particular no ping probe. -/
theorem c9_shutdown_signal (s : SessionState) (evs : List ReadEvent)
    (pevs : List ProbeEvent)
    (hexit : (runLoop s evs).2.2 = true) :
    ((handleSession s evs).2.filter isCloseDone) = [.closeDone]
    ∧ (handleSession s evs).1.doneClosed = true
    ∧ probeStep .running .done = (.stopped, [])
    ∧ probeRun .stopped pevs = (.stopped, [])
    ∧ (probeRun .stopped pevs).2.any isPing = false := by
  refine ⟨?_, ?_, rfl, probeRun_stopped pevs, ?_⟩
  · unfold handleSession
    rw [if_pos hexit]
    simp [List.filter_append, runLoop_no_closeDone evs s, isCloseDone]
  · unfold handleSession
    rw [if_pos hexit]
  · rw [probeRun_stopped pevs]
    rfl

/-- Witness for C9: a session ending in a read failure closes the done
channel exactly once, and a stopped probe goroutine emits nothing on
further ticks. -/
theorem c9_shutdown_signal_witness :
    ((handleSession (initialState 0) [.failure 5]).2.filter isCloseDone) = [.closeDone]
    ∧ probeRun .stopped [.tick true, .tick false, .done] = (.stopped, []) := by
  have h := c9_shutdown_signal (initialState 0) [.failure 5]
    [.tick true, .tick false, .done] (by decide)
  exact ⟨h.1, h.2.2.2.1⟩

/-- Claim C10: reversing by code point is an involution on strings
(Lean strings are exactly the valid-UTF-8 byte strings, viewed as their
code-point sequences), and one application preserves the number of code
points. -/
theorem c10_reverse_involution (s : String) :
    reverseString (reverseString s) = s
    ∧ (reverseString s).length = s.length := by
  constructor
  · show String.mk (String.mk s.data.reverse).data.reverse = s
    rw [stringData_mk, List.reverse_reverse]
  · show (String.mk s.data.reverse).length = s.length
    rw [stringLength_mk, List.length_reverse]
    rfl
